import Mathlib

/-!
Verification of the pairing-session lifecycle manager and the token
issuance/rotation service of the ctrl-w backend.

The session model is embedded from the full Session schema and its methods
(the copy embedded in src/backend/models/User.js, lines 184-448, which is the
complete file: schema, statics and instance methods).  The truncated copy in
src/backend/models/Session.js differs in one place (the expiresAt default
calls the undefined identifier `parsInt`); that variant is embedded
separately.  The token service is embedded from
src/backend/services/authService.js.

Dates are modelled as natural numbers (milliseconds since the epoch for
session fields, seconds for JWT expiry claims, matching each source site's
own unit).  Mongoose documents become Lean structures; the database becomes
an explicit value (a list of documents) threaded through each operation.
-/

namespace CtrlW

/-- Status enum of the session schema: `enum: ['active', 'expired', 'closed']`. -/
inductive SessionStatus
  | active
  | expired
  | closed
deriving DecidableEq

/-- One entry of the `participants` array of the session schema:
`{ socketId, joinedAt, deviceInfo }`. -/
structure Participant where
  socketId : String
  joinedAt : Nat
  deviceInfo : String
deriving DecidableEq

/-- A session document, from the session schema: pairing code, participants,
status, expiry, counters and last-activity timestamp.  The optional `creator`
reference plays no role in any verified property and is omitted. -/
structure Session where
  pairingCode : String
  participants : List Participant
  status : SessionStatus
  expiresAt : Nat
  messageCount : Nat
  fileCount : Nat
  lastActivity : Nat
deriving DecidableEq

/-- The `minutes` computation of the expiresAt default in the schema copy
embedded in User.js: `parseInt(process.env.SESSION_EXPIRY_MINUTES) || 30`.
The environment variable is modelled as an optional number of minutes:
`parseInt` of an unset or non-numeric value yields `NaN`, which `|| 30`
replaces with 30, exactly as it replaces a parsed `0`. -/
def sessionExpiryMinutes (env : Option Nat) : Nat :=
  match env with
  | none => 30
  | some 0 => 30
  | some (Nat.succ m) => Nat.succ m

/-- Creating a session document without an explicitly supplied expiry, with
every defaulted field taking the schema default of the User.js copy:
`status: 'active'`, `participants: []`, `expiresAt: now + minutes*60*1000`,
zero counters, `lastActivity: Date.now`. -/
def createSession (code : String) (env : Option Nat) (now : Nat) : Session :=
  { pairingCode := code
    participants := []
    status := SessionStatus.active
    expiresAt := now + sessionExpiryMinutes env * 60 * 1000
    messageCount := 0
    fileCount := 0
    lastActivity := now }

/-- A JavaScript evaluation error, used to model code whose evaluation throws
before producing a value. -/
inductive JsEvalError
  | referenceError (ident : String)
deriving DecidableEq

/-- The expiresAt default of src/backend/models/Session.js (lines 67-70, the
same text as src/unnamed/part_000): `parsInt(process.env.SESSION_EXPIRY_MINUTES) || 30`.
The identifier `parsInt` is not defined anywhere (a typo for `parseInt`), so
evaluating the default throws `ReferenceError: parsInt is not defined` before
the fallback or the addition can run, and document creation fails. -/
def expiresAtDefaultSessionJs (_env : Option Nat) (_now : Nat) : Except JsEvalError Nat :=
  Except.error (JsEvalError.referenceError "parsInt")

/-- JavaScript `x || dflt` applied to an optional string, as in
`deviceInfo || 'Unknown'`: `undefined` and the empty string are falsy. -/
def jsOr (s : Option String) (dflt : String) : String :=
  match s with
  | none => dflt
  | some v => if v = "" then dflt else v

/-- Method `sessionSchema.methods.addParticipant` (User.js copy, lines 378-392):
if some participant already has this socket id, do nothing; otherwise push
`{ socketId, deviceInfo: deviceInfo || 'Unknown', joinedAt: new Date() }`
and touch `lastActivity`.  There is no status check. -/
def addParticipant (s : Session) (socketId : String) (deviceInfo : Option String)
    (now : Nat) : Session :=
  if s.participants.any (fun p => p.socketId == socketId) then s
  else
    { s with
      participants := s.participants ++
        [{ socketId := socketId, joinedAt := now, deviceInfo := jsOr deviceInfo "Unknown" }]
      lastActivity := now }

/-- Method `sessionSchema.methods.removeParticipant` (User.js copy, lines 402-412):
filter the participant list by socket id, touch `lastActivity`, and set
`status: 'closed'` when the remaining list is empty. -/
def removeParticipant (s : Session) (socketId : String) (now : Nat) : Session :=
  let remaining := s.participants.filter (fun p => !(p.socketId == socketId))
  { s with
    participants := remaining
    lastActivity := now
    status := if remaining.length = 0 then SessionStatus.closed else s.status }

/-- Method `sessionSchema.methods.extendExpiration` (User.js copy, lines 437-442):
`this.expiresAt = new Date(Date.now() + minutes*60*1000)` and touch
`lastActivity`.  The method does not consult `status` and does not compare
against the previous expiry. -/
def extendExpiration (s : Session) (minutes : Nat) (now : Nat) : Session :=
  { s with
    expiresAt := now + minutes * 60 * 1000
    lastActivity := now }

/-- Decimal digits of a natural number, most significant first, computed with
a structural fuel argument so that the kernel can evaluate it.  With fuel at
least 1 the 0-ary case yields `[0]`, matching JavaScript `toString`. -/
def decimalDigitsAux : Nat → Nat → List Nat
  | 0, _ => []
  | fuel + 1, n =>
    if n < 10 then [n]
    else decimalDigitsAux fuel (n / 10) ++ [n % 10]

/-- Decimal digit list of `n`; `n + 1` units of fuel always suffice. -/
def decimalDigits (n : Nat) : List Nat :=
  decimalDigitsAux (n + 1) n

/-- The character of one decimal digit. -/
def decChar (d : Nat) : Char :=
  Char.ofNat (48 + d)

/-- Formatting step `Math.floor(Math.random()*1000000).toString().padStart(6, '0')`
(User.js copy, lines 344-346): the decimal rendering of the drawn number,
left-padded with `'0'` up to length 6. -/
def pad6 (n : Nat) : String :=
  String.mk (List.replicate (6 - (decimalDigits n).length) '0' ++
    (decimalDigits n).map decChar)

/-- Does a string match `^[0-9]{6}$`: exactly six characters, all decimal
digits. -/
def isSixDigitCode (s : String) : Bool :=
  s.length == 6 && s.data.all Char.isDigit

/-- Outcome of `generateUniquePairingCode`: either a code, or the final
`throw new Error('Failed to generate unique pairing code after maximum retries')`. -/
inductive AllocResult
  | ok (code : String)
  | exhausted
deriving DecidableEq

/-- The retry loop of `sessionSchema.statics.generateUniquePairingCode`
(User.js copy, lines 335-363), instrumented with the number of attempts made.
Each attempt formats the drawn number with `pad6` and runs
`findOne({ pairingCode: code })`, modelled as `List.any` over all stored
session documents — the query has no status filter.  A hit retries;
a miss returns the code; running out of attempts throws. -/
def allocLoop (db : List Session) (draws : Nat → Nat) : Nat → Nat → AllocResult × Nat
  | _, 0 => (AllocResult.exhausted, 0)
  | attempt, remaining + 1 =>
    if db.any (fun s => s.pairingCode == pad6 (draws attempt)) then
      let rest := allocLoop db draws (attempt + 1) remaining
      (rest.fst, rest.snd + 1)
    else
      (AllocResult.ok (pad6 (draws attempt)), 1)

/-- Static method `generateUniquePairingCode(maxRetries)`: run the retry loop from attempt 0.
The randomness source is modelled as a function from attempt index to the
drawn integer (`Math.floor(Math.random() * 1000000)`, always below 1000000). -/
def generateUniquePairingCode (db : List Session) (draws : Nat → Nat)
    (maxRetries : Nat) : AllocResult :=
  (allocLoop db draws 0 maxRetries).fst

/-- Number of attempts `generateUniquePairingCode(maxRetries)` performs. -/
def allocAttempts (db : List Session) (draws : Nat → Nat) (maxRetries : Nat) : Nat :=
  (allocLoop db draws 0 maxRetries).snd

/-- The declared default of the `maxRetries` parameter (`maxRetries = 10`). -/
def defaultMaxRetries : Nat := 10

/-! ## Token service (src/backend/services/authService.js)

A signed JWT is modelled as a record of its claims plus the key it was signed
with; two tokens are byte-exact equal strings iff the records are equal
(deterministic HMAC signing).  Verification succeeds iff the verifier's key
equals the signing key (signature), the expiry lies in the future, and the
audience and issuer equal the fixed constants passed at every call site. -/

/-- A refresh JWT as produced by `generateRefreshToken` (authService.js,
lines 71-82): payload `{ userId, type }` plus the registered claims and the
signing key. -/
structure RefreshJwt where
  userId : String
  typ : String
  exp : Nat
  issuer : String
  audience : String
  key : String
deriving DecidableEq

/-- Error kinds surfaced by the token service, one per `throw` site on the
refresh path. -/
inductive AuthError
  | tokenExpired
  | jsonWebToken
  | invalidTokenType
  | userNotFound
  | revoked
  | typeError
deriving DecidableEq

/-- A user document as touched by the refresh path: id, single refresh-token
slot (absent after logout or before first issuance), activity flag. -/
structure UserDoc where
  id : String
  refreshToken : Option RefreshJwt
  isActive : Bool
deriving DecidableEq

/-- Call `jwt.verify(token, secret, issuer 'ctrl-w-api', audience 'ctrl-w-client')`
for a refresh token: signature, then expiry, then audience/issuer, with the
jsonwebtoken error classes `JsonWebTokenError` and `TokenExpiredError`. -/
def jwtVerify (t : RefreshJwt) (secret : String) (now : Nat) : Except AuthError RefreshJwt :=
  if t.key ≠ secret then Except.error AuthError.jsonWebToken
  else if t.exp ≤ now then Except.error AuthError.tokenExpired
  else if t.audience ≠ "ctrl-w-client" then Except.error AuthError.jsonWebToken
  else if t.issuer ≠ "ctrl-w-api" then Except.error AuthError.jsonWebToken
  else Except.ok t

/-- Function `verifyRefreshToken` (authService.js, lines 141-180).  It verifies the
JWT, checks `decoded.type !== 'refresh'`, loads the user by
`decoded.userId`, and compares the stored slot byte-exact against the
supplied token.  The source's try block contains NO return statement, so on
the all-checks-pass path the async function resolves `undefined`: the success
value here is `Unit`, not the decoded payload its doc comment promises. -/
def verifyRefreshToken (db : List UserDoc) (secret : String) (now : Nat)
    (token : RefreshJwt) : Except AuthError Unit :=
  match jwtVerify token secret now with
  | Except.error e => Except.error e
  | Except.ok decoded =>
    if decoded.typ ≠ "refresh" then Except.error AuthError.invalidTokenType
    else
      match db.find? (fun u => u.id == decoded.userId) with
      | none => Except.error AuthError.userNotFound
      | some u =>
        if u.refreshToken ≠ some token then Except.error AuthError.revoked
        else Except.ok ()

/-- The pair `{ accessToken, refreshToken }` that `refresh` is documented to
return.  No execution of the embedded `refresh` ever constructs one. -/
structure TokenPair where
  accessToken : String
  refreshToken : String
deriving DecidableEq

/-- Function `refresh` (authService.js, lines 309-340), returning its result together
with the (possibly updated) user store.  `const decoded = await
verifyRefreshToken(refreshToken)` binds `undefined` (see
`verifyRefreshToken`), so the very next expression `decoded.userId` throws
`TypeError` before `User.findById`, token generation, or the
`user.refreshToken = newRefreshToken; user.save()` write are ever reached;
the catch block stamps `statusCode = 401` on whichever error arrived and
rethrows it.  Hence every run returns an error and leaves the store as it
was. -/
def refresh (db : List UserDoc) (secret : String) (now : Nat)
    (token : RefreshJwt) : Except AuthError TokenPair × List UserDoc :=
  match verifyRefreshToken db secret now token with
  | Except.error e => (Except.error e, db)
  | Except.ok _ => (Except.error AuthError.typeError, db)

/-- Two `refresh` calls bearing the same token, run one after the other with
the store threaded through.  Because a `refresh` call performs no store write
before failing (see `refresh`), this sequential schedule produces the same
pair of outcomes as any interleaving of the two calls' store operations. -/
def refreshTwoSeq (db : List UserDoc) (secret : String) (now : Nat)
    (token : RefreshJwt) :
    Except AuthError TokenPair × Except AuthError TokenPair × List UserDoc :=
  let r1 := refresh db secret now token
  let r2 := refresh r1.snd secret now token
  (r1.fst, r2.fst, r2.snd)

/-- Is an `Except` a success. -/
def exceptOk {ε α : Type} : Except ε α → Bool
  | Except.ok _ => true
  | Except.error _ => false

/-! ## Concrete example values used by counterexamples and witnesses -/

/-- An active session 30 minutes from expiry (created at time 0). -/
def sActiveC3 : Session :=
  { pairingCode := "123456", participants := [], status := SessionStatus.active,
    expiresAt := 1800000, messageCount := 0, fileCount := 0, lastActivity := 0 }

/-- A closed session. -/
def sClosedC3 : Session :=
  { pairingCode := "654321", participants := [], status := SessionStatus.closed,
    expiresAt := 500, messageCount := 0, fileCount := 0, lastActivity := 0 }

/-- A closed session with no participants left. -/
def sClosedC4 : Session :=
  { pairingCode := "111222", participants := [], status := SessionStatus.closed,
    expiresAt := 1000, messageCount := 0, fileCount := 0, lastActivity := 0 }

/-- The sole participant of `sSoleC4`. -/
def pC4 : Participant :=
  { socketId := "sock-sole", joinedAt := 7, deviceInfo := "Unknown" }

/-- An active session with exactly one participant. -/
def sSoleC4 : Session :=
  { pairingCode := "333444", participants := [pC4], status := SessionStatus.active,
    expiresAt := 1000, messageCount := 0, fileCount := 0, lastActivity := 0 }

/-- An active session with no participants yet. -/
def emptySessionC7 : Session :=
  { pairingCode := "222333", participants := [], status := SessionStatus.active,
    expiresAt := 1000, messageCount := 0, fileCount := 0, lastActivity := 0 }

/-- A stored active session holding code 111111. -/
def sActiveC8 : Session :=
  { pairingCode := "111111", participants := [], status := SessionStatus.active,
    expiresAt := 1000, messageCount := 0, fileCount := 0, lastActivity := 0 }

/-- Store for the C8 witness. -/
def dbC8 : List Session := [sActiveC8]

/-- A randomness source that always draws 7. -/
def drawsC8 : Nat → Nat := fun _ => 7

/-- A stored session holding code 000000, for the exhaustion witness. -/
def sC9 : Session :=
  { pairingCode := "000000", participants := [], status := SessionStatus.active,
    expiresAt := 1000, messageCount := 0, fileCount := 0, lastActivity := 0 }

/-- Store for the C9 witness. -/
def dbC9 : List Session := [sC9]

/-- A closed session still holding code 000000. -/
def sClosedC10 : Session :=
  { pairingCode := "000000", participants := [], status := SessionStatus.closed,
    expiresAt := 1000, messageCount := 0, fileCount := 0, lastActivity := 0 }

/-- An expired-but-unreaped session still holding code 000001. -/
def sExpiredC10 : Session :=
  { pairingCode := "000001", participants := [], status := SessionStatus.expired,
    expiresAt := 1, messageCount := 0, fileCount := 0, lastActivity := 0 }

/-- Store for the C10 witness: only terminal-status sessions. -/
def dbC10 : List Session := [sClosedC10, sExpiredC10]

/-- A randomness source drawing 0, 1, 2, ... in order. -/
def drawsC10 : Nat → Nat := fun i => i

/-- A well-formed, unexpired refresh token for user u1, signed with the
configured refresh secret. -/
def tC5 : RefreshJwt :=
  { userId := "u1", typ := "refresh", exp := 1000, issuer := "ctrl-w-api",
    audience := "ctrl-w-client", key := "refresh-secret" }

/-- The active user u1 whose stored slot holds exactly `tC5`. -/
def uC5 : UserDoc := { id := "u1", refreshToken := some tC5, isActive := true }

/-- Store for the C5 counterexample. -/
def dbC5 : List UserDoc := [uC5]

/-- A well-formed, unexpired refresh token for user u1. -/
def tC6 : RefreshJwt :=
  { userId := "u1", typ := "refresh", exp := 1000, issuer := "ctrl-w-api",
    audience := "ctrl-w-client", key := "refresh-secret" }

/-- The active user u1, whose stored slot no longer holds `tC6`. -/
def uC6 : UserDoc := { id := "u1", refreshToken := none, isActive := true }

/-! ## Theorems -/

/-- C2: a session created without an explicitly supplied expiry has status
active and expiry equal to creation time plus the configured TTL (default 30
minutes when SESSION_EXPIRY_MINUTES is unset), strictly in the future — true
of the schema copy embedded in User.js; but the expiresAt default of
src/backend/models/Session.js itself calls the undefined identifier
`parsInt`, so there creation throws ReferenceError instead. -/
theorem c2_session_creation_defaults (code : String) (env : Option Nat) (now : Nat) :
    (createSession code env now).status = SessionStatus.active
    ∧ (createSession code env now).expiresAt = now + sessionExpiryMinutes env * 60 * 1000
    ∧ now < (createSession code env now).expiresAt
    ∧ sessionExpiryMinutes none = 30
    ∧ expiresAtDefaultSessionJs env now = Except.error (JsEvalError.referenceError "parsInt") := by
  refine ⟨rfl, rfl, ?_, rfl, rfl⟩
  have hpos : 0 < sessionExpiryMinutes env := by
    cases env with
    | none => decide
    | some m => cases m with
      | zero => decide
      | succ k => exact Nat.succ_pos k
  have : 0 < sessionExpiryMinutes env * 60 * 1000 :=
    Nat.mul_pos (Nat.mul_pos hpos (by norm_num)) (by norm_num)
  exact Nat.lt_add_of_pos_right this

/-- C3 counterexample: on an active session 30 minutes from expiry,
`extendExpiration(1)` at time 0 moves the expiry to 60000, which is NOT
strictly greater than the previous 1800000; and on a closed session the call
is not a no-op (it rewrites expiry and last-activity). -/
theorem c3_counterexample :
    ¬ (sActiveC3.expiresAt < (extendExpiration sActiveC3 1 0).expiresAt)
    ∧ extendExpiration sClosedC3 1 0 ≠ sClosedC3 := by
  decide

/-- C3 amended: `extendExpiration(m)` unconditionally sets expiry to
now + m minutes and last-activity to now, whatever the session's status;
status and participants are untouched, and no comparison with the previous
expiry is made. -/
theorem c3_extendExpiration_sets_absolute_expiry (s : Session) (minutes now : Nat) :
    (extendExpiration s minutes now).expiresAt = now + minutes * 60 * 1000
    ∧ (extendExpiration s minutes now).lastActivity = now
    ∧ (extendExpiration s minutes now).status = s.status
    ∧ (extendExpiration s minutes now).participants = s.participants :=
  ⟨rfl, rfl, rfl, rfl⟩

/-- C4 counterexample: `addParticipant` on a closed session is neither
rejected nor a no-op — with a fresh socket id it appends a participant. -/
theorem c4_counterexample :
    addParticipant sClosedC4 "sock-1" none 5 ≠ sClosedC4
    ∧ (addParticipant sClosedC4 "sock-1" none 5).participants.length = 1 := by
  decide

/-- C4 amended: removing the sole remaining participant transitions the
session to closed, and a closed session's status never changes under any
later `addParticipant` or `removeParticipant` — though `addParticipant` may
still modify the participant list. -/
theorem c4_closed_status_is_terminal (s s2 : Session) (p : Participant)
    (sid a r : String) (d : Option String) (t1 t2 t3 : Nat)
    (h1 : s.participants = [p]) (h2 : p.socketId = sid)
    (h3 : s2.status = SessionStatus.closed) :
    (removeParticipant s sid t1).status = SessionStatus.closed
    ∧ (addParticipant s2 a d t2).status = SessionStatus.closed
    ∧ (removeParticipant s2 r t3).status = SessionStatus.closed := by
  refine ⟨?_, ?_, ?_⟩
  · simp [removeParticipant, h1, h2]
  · unfold addParticipant
    split
    · exact h3
    · exact h3
  · have hproj : (removeParticipant s2 r t3).status =
        (if (s2.participants.filter (fun p => !(p.socketId == r))).length = 0
          then SessionStatus.closed else s2.status) := rfl
    rw [hproj]
    split
    · rfl
    · exact h3

/-- C4 witness: the amended statement at concrete sessions. -/
theorem c4_closed_status_is_terminal_witness :
    (removeParticipant sSoleC4 "sock-sole" 9).status = SessionStatus.closed
    ∧ (addParticipant sClosedC4 "sock-2" none 9).status = SessionStatus.closed
    ∧ (removeParticipant sClosedC4 "sock-3" 9).status = SessionStatus.closed :=
  c4_closed_status_is_terminal sSoleC4 sClosedC4 pC4 "sock-sole" "sock-2" "sock-3"
    none 9 9 9 rfl rfl rfl

/-- C7: on a session with no participant for a connection id, adding it twice
leaves the second call a complete no-op, and exactly one entry for the id
remains, carrying the join time of the first call. -/
theorem c7_addParticipant_idempotent (s : Session) (id : String) (d1 d2 : Option String)
    (t1 t2 : Nat)
    (h : s.participants.any (fun p => p.socketId == id) = false) :
    addParticipant (addParticipant s id d1 t1) id d2 t2 = addParticipant s id d1 t1
    ∧ ((addParticipant (addParticipant s id d1 t1) id d2 t2).participants.filter
        (fun p => p.socketId == id)).map Participant.joinedAt = [t1] := by
  have e1 : addParticipant s id d1 t1 =
      { s with
        participants := s.participants ++
          [{ socketId := id, joinedAt := t1, deviceInfo := jsOr d1 "Unknown" }]
        lastActivity := t1 } := by
    simp [addParticipant, h]
  have e2 : addParticipant (addParticipant s id d1 t1) id d2 t2
      = addParticipant s id d1 t1 := by
    rw [e1]
    simp [addParticipant]
  refine ⟨e2, ?_⟩
  rw [e2, e1]
  have hnil : s.participants.filter (fun p => p.socketId == id) = [] := by
    rw [List.filter_eq_nil_iff]
    intro p hp
    have := List.any_eq_false.mp h p hp
    simpa using this
  simp [List.filter_append, hnil]

/-- C7 witness: the idempotence statement at a concrete empty session. -/
theorem c7_addParticipant_idempotent_witness :
    addParticipant (addParticipant emptySessionC7 "sock-a" none 3) "sock-a" (some "Chrome") 9
      = addParticipant emptySessionC7 "sock-a" none 3
    ∧ ((addParticipant (addParticipant emptySessionC7 "sock-a" none 3) "sock-a"
        (some "Chrome") 9).participants.filter
        (fun p => p.socketId == "sock-a")).map Participant.joinedAt = [3] :=
  c7_addParticipant_idempotent emptySessionC7 "sock-a" none (some "Chrome") 3 9 (by decide)

/-- Helper: every `refresh` call returns an error and leaves the user store
untouched, because `verifyRefreshToken` resolves `undefined` (its try block
never returns the decoded payload) and `decoded.userId` then throws
`TypeError` before any token is issued or any write happens. -/
theorem refresh_result_error (db : List UserDoc) (secret : String) (now : Nat)
    (token : RefreshJwt) :
    exceptOk (refresh db secret now token).fst = false
    ∧ (refresh db secret now token).snd = db := by
  unfold refresh
  cases hv : verifyRefreshToken db secret now token with
  | error e => exact ⟨rfl, rfl⟩
  | ok u => exact ⟨rfl, rfl⟩

/-- C1: in the code as written no refresh operation ever succeeds and the
stored slot is never replaced — for every store, secret, clock and token,
`refresh` returns an error and leaves the store unchanged, because
`verifyRefreshToken` lacks a return statement and `refresh` dereferences the
resulting `undefined`. -/
theorem c1_refresh_never_succeeds (db : List UserDoc) (secret : String) (now : Nat)
    (token : RefreshJwt) :
    exceptOk (refresh db secret now token).fst = false
    ∧ (refresh db secret now token).snd = db := by
  unfold refresh
  cases hv : verifyRefreshToken db secret now token with
  | error e => exact ⟨rfl, rfl⟩
  | ok u => exact ⟨rfl, rfl⟩

/-- C5 counterexample: a valid refresh token (signed with the configured
secret, unexpired, correct issuer/audience, type refresh) whose value sits in
the active user's stored slot; two refresh calls presenting it do NOT yield
exactly one success — both fail, each with the TypeError raised right after
verification. -/
theorem c5_counterexample :
    Bool.xor (exceptOk (refreshTwoSeq dbC5 "refresh-secret" 0 tC5).fst)
        (exceptOk (refreshTwoSeq dbC5 "refresh-secret" 0 tC5).snd.fst) = false
    ∧ (refreshTwoSeq dbC5 "refresh-secret" 0 tC5).fst
        = Except.error AuthError.typeError
    ∧ (refreshTwoSeq dbC5 "refresh-secret" 0 tC5).snd.fst
        = Except.error AuthError.typeError := by
  exact ⟨rfl, rfl, rfl⟩

/-- C5 amended: two refresh calls presenting the same token never yield a
success at all — each call fails before reaching the store write (so the
sequential composition below covers every interleaving of the two calls'
store operations), and the store is left unchanged.  The exactly-one-success
compare-and-swap discipline the spec describes is absent: the source's
rotation write is an unconditional `user.save()` after a separate read. -/
theorem c5_concurrent_refresh_both_fail (db : List UserDoc) (secret : String)
    (now : Nat) (token : RefreshJwt) :
    exceptOk (refreshTwoSeq db secret now token).fst = false
    ∧ exceptOk (refreshTwoSeq db secret now token).snd.fst = false
    ∧ (refreshTwoSeq db secret now token).snd.snd = db := by
  have h1 := refresh_result_error db secret now token
  have h2 := refresh_result_error (refresh db secret now token).snd secret now token
  refine ⟨h1.1, h2.1, ?_⟩
  show (refresh (refresh db secret now token).snd secret now token).snd = db
  rw [h2.2, h1.2]

/-- C6: the revocation check of `verifyRefreshToken` — when a refresh token
passes the signature/expiry/issuer/audience and type checks but the found
user's stored slot does not byte-exact match it, `refresh` fails with the
RevokedToken error ('Refresh token has been revoked') and the store is
unchanged.  (No token can ever reach this state via a prior successful
refresh, since `refresh` never succeeds; the mismatch arises from login
overwrites or logout clears.) -/
theorem c6_slot_mismatch_fails_revoked (db : List UserDoc) (secret : String)
    (now : Nat) (token : RefreshJwt) (u : UserDoc)
    (hjwt : jwtVerify token secret now = Except.ok token)
    (htyp : token.typ = "refresh")
    (hfind : db.find? (fun v => v.id == token.userId) = some u)
    (hslot : u.refreshToken ≠ some token) :
    refresh db secret now token = (Except.error AuthError.revoked, db) := by
  have hv : verifyRefreshToken db secret now token = Except.error AuthError.revoked := by
    unfold verifyRefreshToken
    rw [hjwt]
    simp [htyp, hfind, hslot]
  unfold refresh
  rw [hv]

/-- C6 witness: a valid refresh token for u1 whose stored slot is empty (as
after a logout or an overwriting login) is refused as revoked. -/
theorem c6_slot_mismatch_fails_revoked_witness :
    refresh [uC6] "refresh-secret" 0 tC6 = (Except.error AuthError.revoked, [uC6]) :=
  c6_slot_mismatch_fails_revoked [uC6] "refresh-secret" 0 tC6 uC6 rfl rfl rfl
    (by simp [uC6])

/-- Helper: every entry of the decimal digit list is a digit below 10. -/
theorem decimalDigitsAux_lt_ten (fuel : Nat) :
    ∀ n d, d ∈ decimalDigitsAux fuel n → d < 10 := by
  induction fuel with
  | zero =>
    intro n d hd
    simp [decimalDigitsAux] at hd
  | succ k ih =>
    intro n d hd
    unfold decimalDigitsAux at hd
    by_cases h : n < 10
    · rw [if_pos h] at hd
      simp at hd
      omega
    · rw [if_neg h] at hd
      rcases List.mem_append.mp hd with hd1 | hd2
      · exact ih (n / 10) d hd1
      · simp at hd2
        omega

/-- Helper: a number below `10 ^ k` has at most `k` decimal digits
(for positive `k`, and any amount of fuel). -/
theorem decimalDigitsAux_length_le (k : Nat) :
    ∀ fuel n, 0 < k → n < 10 ^ k → (decimalDigitsAux fuel n).length ≤ k := by
  induction k with
  | zero =>
    intro fuel n hk
    omega
  | succ j ih =>
    intro fuel n _ hn
    cases fuel with
    | zero => simp [decimalDigitsAux]
    | succ f =>
      unfold decimalDigitsAux
      by_cases h : n < 10
      · rw [if_pos h]
        simp
      · rw [if_neg h]
        rcases Nat.eq_zero_or_pos j with hj0 | hj
        · subst hj0
          simp [pow_succ, pow_zero] at hn
          exact absurd hn h
        · have hdiv : n / 10 < 10 ^ j := by
            rw [Nat.div_lt_iff_lt_mul (by norm_num : (0:Nat) < 10)]
            calc n < 10 ^ (j + 1) := hn
              _ = 10 ^ j * 10 := by rw [pow_succ]
          have := ih f (n / 10) hj hdiv
          simp [List.length_append]
          omega

/-- Helper: the character of a digit below 10 is a decimal digit character. -/
theorem decChar_isDigit : ∀ d, d < 10 → (decChar d).isDigit = true := by
  decide

/-- Helper: for a draw below 1000000, the allocator's formatted code matches
regex-six-digits: exactly six characters, all decimal digits. -/
theorem pad6_sixDigit (n : Nat) (h : n < 1000000) : isSixDigitCode (pad6 n) = true := by
  have hlen : (decimalDigits n).length ≤ 6 := by
    have h6 : n < 10 ^ 6 := by norm_num; exact h
    exact decimalDigitsAux_length_le 6 (n + 1) n (by norm_num) h6
  unfold isSixDigitCode pad6
  have hlength : (String.mk (List.replicate (6 - (decimalDigits n).length) '0' ++
      (decimalDigits n).map decChar)).length = 6 := by
    show (List.replicate (6 - (decimalDigits n).length) '0' ++
      (decimalDigits n).map decChar).length = 6
    rw [List.length_append, List.length_replicate, List.length_map]
    omega
  rw [hlength]
  simp only [beq_self_eq_true, Bool.true_and]
  show (List.replicate (6 - (decimalDigits n).length) '0' ++
      (decimalDigits n).map decChar).all Char.isDigit = true
  rw [List.all_eq_true]
  intro c hc
  rcases List.mem_append.mp hc with hc1 | hc2
  · have : c = '0' := (List.eq_of_mem_replicate hc1)
    rw [this]
    decide
  · rcases List.mem_map.mp hc2 with ⟨d, hd, hdc⟩
    rw [← hdc]
    exact decChar_isDigit d (decimalDigitsAux_lt_ten (n + 1) n d hd)

/-- Helper: if the allocation loop returns a code, that code came from one of
the draws and collides with no stored session document. -/
theorem allocLoop_ok_spec (db : List Session) (draws : Nat → Nat) :
    ∀ r a code, (allocLoop db draws a r).fst = AllocResult.ok code →
      (∃ i, code = pad6 (draws i))
      ∧ db.any (fun s => s.pairingCode == code) = false := by
  intro r
  induction r with
  | zero =>
    intro a code h
    simp [allocLoop] at h
  | succ m ih =>
    intro a code h
    unfold allocLoop at h
    by_cases hc : db.any (fun s => s.pairingCode == pad6 (draws a)) = true
    · rw [if_pos hc] at h
      exact ih (a + 1) code h
    · rw [if_neg hc] at h
      simp at h
      refine ⟨⟨a, h.symm⟩, ?_⟩
      rw [← h]
      exact Bool.not_eq_true _ ▸ (Bool.eq_false_iff.mpr hc)

/-- Helper: when every draw inside the retry window collides, the loop
consumes the whole window and reports exhaustion. -/
theorem allocLoop_exhausts (db : List Session) (draws : Nat → Nat) :
    ∀ r a, (∀ i, a ≤ i → i < a + r →
        db.any (fun s => s.pairingCode == pad6 (draws i)) = true) →
      allocLoop db draws a r = (AllocResult.exhausted, r) := by
  intro r
  induction r with
  | zero =>
    intro a _
    rfl
  | succ m ih =>
    intro a h
    have hc : db.any (fun s => s.pairingCode == pad6 (draws a)) = true :=
      h a (Nat.le_refl a) (by omega)
    have hrec : allocLoop db draws (a + 1) m = (AllocResult.exhausted, m) :=
      ih (a + 1) (fun i hi1 hi2 => h i (by omega) (by omega))
    unfold allocLoop
    rw [if_pos hc, hrec]

/-- C8: a successful pairing-code allocation returns a zero-padded string of
exactly six decimal digits that differs from the code of every session
currently marked active. -/
theorem c8_allocated_code_wellformed_and_fresh (db : List Session) (draws : Nat → Nat)
    (maxRetries : Nat) (code : String)
    (hdraws : ∀ i, draws i < 1000000)
    (hok : generateUniquePairingCode db draws maxRetries = AllocResult.ok code) :
    isSixDigitCode code = true
    ∧ ∀ s, s ∈ db → s.status = SessionStatus.active → s.pairingCode ≠ code := by
  obtain ⟨⟨i, hi⟩, hany⟩ := allocLoop_ok_spec db draws maxRetries 0 code hok
  refine ⟨?_, ?_⟩
  · rw [hi]
    exact pad6_sixDigit (draws i) (hdraws i)
  · intro s hs _ heq
    have hmem : db.any (fun s => s.pairingCode == code) = true :=
      List.any_eq_true.mpr ⟨s, hs, by simp [heq]⟩
    rw [hany] at hmem
    cases hmem

/-- C8 witness: with one active session holding 111111 and the draw 7, the
allocator returns 000007 — six digits, distinct from the active code. -/
theorem c8_allocated_code_wellformed_and_fresh_witness :
    isSixDigitCode "000007" = true ∧ sActiveC8.pairingCode ≠ "000007" :=
  ⟨(c8_allocated_code_wellformed_and_fresh dbC8 drawsC8 10 "000007"
      (fun _ => (by decide : (7:Nat) < 1000000)) rfl).1,
    (c8_allocated_code_wellformed_and_fresh dbC8 drawsC8 10 "000007"
      (fun _ => (by decide : (7:Nat) < 1000000)) rfl).2 sActiveC8 (by simp [dbC8]) rfl⟩

/-- C9: when every drawn code collides with a stored one, the allocator
reports exhaustion (the final throw) after exactly `maxRetries` attempts; the
declared default of `maxRetries` is 10. -/
theorem c9_exhaustion_after_exactly_maxRetries (db : List Session) (draws : Nat → Nat)
    (maxRetries : Nat)
    (h : ∀ i, i < maxRetries →
      db.any (fun s => s.pairingCode == pad6 (draws i)) = true) :
    generateUniquePairingCode db draws maxRetries = AllocResult.exhausted
    ∧ allocAttempts db draws maxRetries = maxRetries
    ∧ defaultMaxRetries = 10 := by
  have hall : allocLoop db draws 0 maxRetries = (AllocResult.exhausted, maxRetries) :=
    allocLoop_exhausts db draws maxRetries 0 (fun i _ hi => h i (by omega))
  refine ⟨?_, ?_, rfl⟩
  · unfold generateUniquePairingCode
    rw [hall]
  · unfold allocAttempts
    rw [hall]

/-- C9 witness: a store holding 000000 and a source that always draws 0
exhaust a budget of 3 in exactly 3 attempts. -/
theorem c9_exhaustion_after_exactly_maxRetries_witness :
    generateUniquePairingCode dbC9 (fun _ => 0) 3 = AllocResult.exhausted
    ∧ allocAttempts dbC9 (fun _ => 0) 3 = 3
    ∧ defaultMaxRetries = 10 :=
  c9_exhaustion_after_exactly_maxRetries dbC9 (fun _ => 0) 3 (by decide)

/-- C10: the collision query `findOne({ pairingCode: code })` carries no
status filter, so a successfully allocated code differs from the pairing code
of every stored session document — active, expired-but-unreaped, or
closed alike. -/
theorem c10_allocation_avoids_every_stored_code (db : List Session)
    (draws : Nat → Nat) (maxRetries : Nat) (code : String)
    (hok : generateUniquePairingCode db draws maxRetries = AllocResult.ok code) :
    ∀ s, s ∈ db → s.pairingCode ≠ code := by
  obtain ⟨_, hany⟩ := allocLoop_ok_spec db draws maxRetries 0 code hok
  intro s hs heq
  have hmem : db.any (fun s => s.pairingCode == code) = true :=
    List.any_eq_true.mpr ⟨s, hs, by simp [heq]⟩
  rw [hany] at hmem
  cases hmem

/-- C10 witness: over a store holding only a closed session with 000000 and
an expired one with 000001, drawing 0, 1, 2, ... allocates 000002 — skipping
both terminal-status codes. -/
theorem c10_allocation_avoids_every_stored_code_witness :
    sClosedC10.pairingCode ≠ "000002" ∧ sExpiredC10.pairingCode ≠ "000002" :=
  ⟨c10_allocation_avoids_every_stored_code dbC10 drawsC10 10 "000002" rfl
      sClosedC10 (by simp [dbC10]),
    c10_allocation_avoids_every_stored_code dbC10 drawsC10 10 "000002" rfl
      sExpiredC10 (by simp [dbC10])⟩

end CtrlW
